import Mathlib

/-!
# Verification of rateprowler (main.go)

A shallow embedding of the per-endpoint probe of `main.go`:
the rate-expression parser (`parseRate`), the inline backoff sequencer
(lines 139-142 and 166-168), the per-iteration probe loop body
(lines 113-199) as a step function on an explicit state, and the
WaitGroup accounting of `main` (lines 74-77, 204).

Conventions:
* Go `time.Duration` (int64 nanoseconds) is `Int`; absolute times
  (`time.Time`) are also `Int` nanoseconds, with the zero value of
  `time.Time` modelled as `Option.none` where the code uses it as a
  sentinel (`lastError`).
* Go `int` counters are `Int`; they only ever grow by 1 from 0 for at
  most `MaxRequests` iterations, so 64-bit overflow cannot occur and no
  `% 2^64` is taken.
* Byte-level string operations (`rate[len(rate)-1]`, `rate[:len(rate)-1]`)
  are modelled at the character level; the two coincide on ASCII input,
  which is the entire grammar of rate expressions.
-/

namespace Rateprowler

/-- Go `time.Duration`: nanoseconds. -/
abbrev Duration := Int

def second : Duration := 1000000000

def minute : Duration := 60 * second

def hour : Duration := 60 * minute

/-! ## Rate parsing (`parseRate`, main.go lines 223-250)

`parseRate` ignores the error of `fmt.Sscanf(rateValue, "%d", &rl.limit)`;
`Sscanf` with verb `%d` first skips leading white space — `fmt`'s
Unicode space class, except that `Sscanf` scans with `nlIsSpace =
false`, so meeting a newline while skipping is an `unexpected newline`
error — then accepts an optional sign and a maximal non-empty run of
ASCII decimal digits, ignoring any trailing garbage. On an error
(newline, no digits, EOF, int64 overflow of `strconv.ParseInt`) it
assigns nothing, leaving `rl.limit` at its zero value. -/

/-- `fmt`'s white-space class (the `space` rune-range table of
`fmt/scan.go`): 0x09-0x0d, space, NEL, NBSP, and the Unicode space
separators. -/
def goIsSpace (c : Char) : Bool :=
  let n := c.toNat
  (0x9 ≤ n && n ≤ 0xd) || n == 0x20 || n == 0x85 || n == 0xa0 ||
    n == 0x1680 || (0x2000 ≤ n && n ≤ 0x200a) || n == 0x2028 ||
    n == 0x2029 || n == 0x202f || n == 0x205f || n == 0x3000

/-- `(*ss).SkipSpace` as run by `Sscanf` (`nlIsSpace = false`): skip
white space, but fail with `unexpected newline` on a `\n` (a `\r`
immediately followed by `\n` is consumed first and fails the same
way, and a lone `\r` is ordinary white space, as in the Go loop). -/
def skipSpace : List Char → Option (List Char)
  | [] => some []
  | c :: cs =>
    if c = '\n' then none
    else if goIsSpace c then skipSpace cs
    else some (c :: cs)

def digitsToNat (ds : List Char) : Nat :=
  ds.foldl (fun a c => a * 10 + (c.toNat - ('0').toNat)) 0

def int64Max : Nat := 9223372036854775807

/-- Magnitude part of the `%d` scan: a non-empty maximal run of decimal
digits, rejected when it does not fit in an int64. -/
def scanMag (cs : List Char) (neg : Bool) : Option Int :=
  let ds := cs.takeWhile Char.isDigit
  if ds.isEmpty then none
  else
    let v := digitsToNat ds
    if neg then
      if v ≤ int64Max + 1 then some (-(v : Int)) else none
    else
      if v ≤ int64Max then some (v : Int) else none

/-- `fmt.Sscanf(_, "%d", &x)`: the value assigned to `x`, or `none` when
the scan fails (unexpected newline, no digits, overflow) and `x` is
left unchanged. -/
def scanInt (cs : List Char) : Option Int :=
  match skipSpace cs with
  | none => none
  | some ('-' :: rest) => scanMag rest true
  | some ('+' :: rest) => scanMag rest false
  | some rest => scanMag rest false

structure RateLimit where
  limit : Int
  interval : Duration
deriving Repr, DecidableEq

/-- The `switch rate[len(rate)-1]` of main.go lines 230-239: the unit
suffix mapped to its interval, `none` for the `default` error case. -/
def unitOf (c : Char) : Option Duration :=
  if c = 's' then some second
  else if c = 'm' then some minute
  else if c = 'h' then some hour
  else none

/-- `parseRate` (main.go lines 223-250). `none` is the
`invalid rate` error path. -/
def parseRate (rate : String) : Option RateLimit :=
  if rate.length < 2 then none
  else
    match unitOf rate.back with
    | none => none
    | some interval =>
      let limit := (scanInt (rate.toList.take (rate.length - 1))).getD 0
      if limit ≤ 0 then none else some { limit := limit, interval := interval }

/-- `(*rateLimit).waitTime` (main.go lines 257-259): Go int64 division
truncates toward zero. -/
def RateLimit.waitTime (rl : RateLimit) : Duration :=
  Int.tdiv rl.interval rl.limit

/-! ## Backoff sequencer (inline in the probe loop)

`waitIndex` / `errorWait` are the loop variables of main.go lines
107-108; the failure transition is lines 139-142, the success reset is
lines 166-168. -/

structure BackoffState where
  waitIndex : Nat
  errorWait : Duration
deriving Repr, DecidableEq

/-- Failure transition (main.go lines 139-142):
`if waitIndex < len(tester.ErrorWaitIntervals) { errorWait =
time.Duration(tester.ErrorWaitIntervals[waitIndex]) * time.Second;
waitIndex++ }`. -/
def onFailure (intervals : List Int) (st : BackoffState) : BackoffState :=
  if h : st.waitIndex < intervals.length then
    { waitIndex := st.waitIndex + 1
      errorWait := intervals.get ⟨st.waitIndex, h⟩ * second }
  else st

/-- Success reset (main.go lines 166-168):
`if waitIndex > 0 { waitIndex = 0 }`. -/
def onSuccess (st : BackoffState) : BackoffState :=
  if st.waitIndex > 0 then { st with waitIndex := 0 } else st

/-! ## Probe loop body (main.go lines 113-199)

One iteration of `for requestCount < tester.MaxRequests`, as a step
function on an explicit state. The iteration's calls to `time.Now()`
are modelled by one timestamp `t` per iteration. -/

/-- The outcome of `client.Get`: a transport-level error
(`err != nil`) or a response with a status code. -/
inductive Outcome where
  | transportError (msg : String)
  | status (code : Int)
deriving Repr, DecidableEq

/-- Condition of main.go line 121:
`err != nil || resp.StatusCode > 400 && resp.StatusCode < 500`. -/
def isFailure (o : Outcome) : Bool :=
  match o with
  | .transportError _ => true
  | .status c => decide (400 < c) && decide (c < 500)

/-- Condition of main.go line 159:
`resp.StatusCode >= 200 && resp.StatusCode < 300`. -/
def isSuccess (o : Outcome) : Bool :=
  match o with
  | .transportError _ => false
  | .status c => decide (200 ≤ c) && decide (c < 300)

/-- An argument bound into a `db.Exec` call. -/
inductive Value where
  | str (s : String)
  | int (n : Int)
deriving Repr, DecidableEq

/-- One `db.Exec` INSERT: the column list, the number of `?`
placeholders in the VALUES clause, and the bound arguments. -/
structure SinkWrite where
  columns : List String
  placeholders : Nat
  args : List Value
deriving Repr, DecidableEq

/-- The sqlite driver rejects an `Exec` whose argument count differs
from its placeholder count, so the write succeeds only when they
match. The returned error is discarded by the caller. -/
def SinkWrite.succeeds (w : SinkWrite) : Bool :=
  w.placeholders == w.args.length

/-- The error-event INSERT issued on a failed request
(main.go lines 123-128). The transport-error variant (line 125) lists
four columns and binds four arguments but its VALUES clause has only
three placeholders. -/
def errorInsert (name : String) (o : Outcome) (t : Int) : SinkWrite :=
  match o with
  | .transportError msg =>
    { columns := ["name", "type", "error", "timestamp"]
      placeholders := 3
      args := [.str name, .str "sys", .str msg, .int t] }
  | .status code =>
    { columns := ["name", "type", "status", "timestamp"]
      placeholders := 4
      args := [.str name, .str "http", .int code, .int t] }

/-- The `Batch` struct (main.go lines 298-305). -/
structure Batch where
  name : String
  successes : Int
  successTime : Duration
  failures : Int
  failTime : Duration
  lastWaitInterval : Int
deriving Repr, DecidableEq

/-- The `Result` struct (main.go lines 25-35), minus the constant
`Endpoint` field. -/
structure ResultState where
  successfulCount : Int
  batchSuccessfulCount : Int
  errorCount : Int
  batchErrorCount : Int
  requestsPerSecond : Float
  errorWait : Duration
  sleepStatus : Bool
  totalSuccessTime : Duration

/-- `float64(successfulCount) / time.Since(startTime).Seconds()`
(main.go line 163); `Duration.Seconds` is
`float64(d/Second) + float64(d%Second)/1e9`. -/
def goRps (successfulCount : Int) (elapsed : Duration) : Float :=
  Float.ofInt successfulCount /
    (Float.ofInt (Int.tdiv elapsed second) +
      Float.ofInt (Int.tmod elapsed second) / 1000000000.0)

/-- The probe's loop variables (main.go lines 106-111) together with
its `Result` record. -/
structure ProbeState where
  requestCount : Int
  backoff : BackoffState
  lastError : Option Int
  batchStartTime : Int
  res : ResultState

/-- `Result` zero value and loop-variable initialisation
(main.go lines 58, 106-111) with probe start time `t0`. -/
def initialProbeState (t0 : Int) : ProbeState :=
  { requestCount := 0
    backoff := { waitIndex := 0, errorWait := 0 }
    lastError := none
    batchStartTime := t0
    res :=
      { successfulCount := 0
        batchSuccessfulCount := 0
        errorCount := 0
        batchErrorCount := 0
        requestsPerSecond := 0.0
        errorWait := 0
        sleepStatus := false
        totalSuccessTime := 0 } }

/-- The externally visible effects of one loop iteration. -/
structure StepEffects where
  paceSleep : Duration
  sinkError : Option SinkWrite
  backoffSleep : Option Duration
  batch : Option Batch

/-- One iteration of the probe loop (main.go lines 113-199) at
timestamp `t`, for endpoint `name` with backoff list `intervals`,
pacer `rl` and global start time `startTime`. Returns `none` exactly
when the iteration panics: building the `Batch` indexes
`tester.ErrorWaitIntervals[waitIndex]` (line 190), which is out of
range when the list is shorter than `waitIndex + 1`. -/
def probeStep (name : String) (intervals : List Int) (rl : RateLimit)
    (startTime t : Int) (o : Outcome) (s : ProbeState) :
    Option (ProbeState × StepEffects) :=
  if isFailure o then
    -- lines 121-157
    let w := errorInsert name o t
    let b := onFailure intervals s.backoff
    let res' := { s.res with
      errorCount := s.res.errorCount + 1
      batchErrorCount := s.res.batchErrorCount + 1
      totalSuccessTime := t - s.batchStartTime
      sleepStatus := false }
    let lastError' := match s.lastError with
      | none => some t
      | some e => some e
    some ({ requestCount := s.requestCount + 1
            backoff := b
            lastError := lastError'
            batchStartTime := t
            res := res' },
          { paceSleep := rl.waitTime
            sinkError := some w
            backoffSleep := some b.errorWait
            batch := none })
  else if isSuccess o then
    -- lines 159-197
    let b := onSuccess s.backoff
    let res1 := { s.res with
      successfulCount := s.res.successfulCount + 1
      batchSuccessfulCount := s.res.batchSuccessfulCount + 1
      requestsPerSecond := goRps (s.res.successfulCount + 1) (t - startTime) }
    match s.lastError with
    | some le =>
      let totalErrorWait : Duration := t - le
      match intervals.get? b.waitIndex with
      | none => none
      | some lw =>
        let batch : Batch :=
          { name := name
            successes := res1.batchSuccessfulCount
            successTime := res1.totalSuccessTime
            failures := res1.batchErrorCount
            failTime := totalErrorWait
            lastWaitInterval := lw }
        some ({ requestCount := s.requestCount + 1
                backoff := b
                lastError := none
                batchStartTime := s.batchStartTime
                res := { res1 with
                  errorWait := totalErrorWait
                  batchErrorCount := 0
                  batchSuccessfulCount := 0 } },
              { paceSleep := rl.waitTime
                sinkError := none
                backoffSleep := none
                batch := some batch })
    | none =>
      some ({ requestCount := s.requestCount + 1
              backoff := b
              lastError := none
              batchStartTime := s.batchStartTime
              res := res1 },
            { paceSleep := rl.waitTime
              sinkError := none
              backoffSleep := none
              batch := none })
  else
    -- neither branch taken: only line 198 runs
    some ({ s with requestCount := s.requestCount + 1 },
          { paceSleep := rl.waitTime
            sinkError := none
            backoffSleep := none
            batch := none })

/-- Run the probe loop over a list of timestamped outcomes. -/
def runProbe (name : String) (intervals : List Int) (rl : RateLimit)
    (startTime : Int) (events : List (Int × Outcome)) (s : ProbeState) :
    Option (ProbeState × List StepEffects) :=
  match events with
  | [] => some (s, [])
  | (t, o) :: rest =>
    match probeStep name intervals rl startTime t o s with
    | none => none
    | some (s', eff) =>
      match runProbe name intervals rl startTime rest s' with
      | none => none
      | some (sf, effs) => some (sf, eff :: effs)

/-- The batches emitted along a run. -/
def batchesOf (effs : List StepEffects) : List Batch :=
  effs.filterMap (fun e => e.batch)

/-! ## WaitGroup accounting (main.go lines 74-77, 204)

`main` calls `wg.Add(100000)` once per tester (line 75); each tester
goroutine runs exactly one deferred `wg.Done()` (line 77), whether it
finishes its budget or aborts on a configuration error. `wg.Wait()`
(line 204) returns only when the counter is zero. -/

def wgAddPerTester : Nat := 100000

def wgDonePerTester : Nat := 1

/-- The WaitGroup counter after every one of `n` tester goroutines has
completed. -/
def wgCounterAfterAllWorkers (n : Nat) : Nat :=
  n * wgAddPerTester - n * wgDonePerTester

/-- `wg.Wait()` returns exactly when the counter is zero. -/
def waitReturns (counter : Nat) : Prop := counter = 0

/-! ## Spec-side definitions used for refinement comparison -/

/-- Modelled from the spec: the whole character list is a (non-empty)
run of decimal digits denoting a strictly positive integer — the
spec's "whose entire leading substring parses as a strictly positive
integer". -/
def specEntirePosInt (cs : List Char) : Bool :=
  decide (cs ≠ []) && cs.all Char.isDigit && decide (0 < digitsToNat cs)

/-- Modelled from the spec: a valid rate expression is at least two
characters, ends in `s`/`m`/`h`, and its entire leading substring
parses as a strictly positive integer. -/
def specValidRate (rate : String) : Bool :=
  decide (2 ≤ rate.length) &&
    (rate.back == 's' || rate.back == 'm' || rate.back == 'h') &&
    specEntirePosInt (rate.toList.take (rate.length - 1))

/-- Modelled from the spec: the elapsed wall time accrued during the
success run that precedes an error streak — from the start of the run
(probe start, or the previous recovery) to the streak's first
failure. -/
def specSuccessRunTime (runStart firstFailure : Int) : Int :=
  firstFailure - runStart

/-- The probe state reached from `initialProbeState 0` (backoff list
`[1]`) after a single failed request at `t = 5`: one error counted, a
streak open since `t = 5`, backoff escalated once. -/
def failedOnceState : ProbeState :=
  { requestCount := 1
    backoff := { waitIndex := 1, errorWait := second }
    lastError := some 5
    batchStartTime := 5
    res :=
      { successfulCount := 0
        batchSuccessfulCount := 0
        errorCount := 1
        batchErrorCount := 1
        requestsPerSecond := 0.0
        errorWait := 0
        sleepStatus := false
        totalSuccessTime := 5 } }

/-! ## Shared helper lemmas -/

theorem onSuccess_waitIndex (st : BackoffState) :
    (onSuccess st).waitIndex = 0 := by
  unfold onSuccess
  split
  · rfl
  · omega

theorem onSuccess_eq (st : BackoffState) :
    onSuccess st = { st with waitIndex := 0 } := by
  unfold onSuccess
  split
  · rfl
  · cases st with
    | mk i w => simp_all

theorem success_not_failure {o : Outcome} (h : isSuccess o = true) :
    isFailure o = false := by
  cases o with
  | transportError msg => simp [isSuccess] at h
  | status c =>
    simp [isSuccess] at h
    simp [isFailure]
    omega

theorem probeStep_paceSleep {name : String} {intervals : List Int}
    {rl : RateLimit} {startTime t : Int} {o : Outcome} {s : ProbeState}
    {s' : ProbeState} {eff : StepEffects}
    (h : probeStep name intervals rl startTime t o s = some (s', eff)) :
    eff.paceSleep = rl.waitTime := by
  unfold probeStep at h
  split at h
  · simp only [Option.some.injEq, Prod.mk.injEq] at h
    obtain ⟨-, h2⟩ := h
    subst h2
    rfl
  · split at h
    · split at h
      · dsimp only at h
        split at h
        · exact absurd h (by simp)
        · simp only [Option.some.injEq, Prod.mk.injEq] at h
          obtain ⟨-, h2⟩ := h
          subst h2
          rfl
      · simp only [Option.some.injEq, Prod.mk.injEq] at h
        obtain ⟨-, h2⟩ := h
        subst h2
        rfl
    · simp only [Option.some.injEq, Prod.mk.injEq] at h
      obtain ⟨-, h2⟩ := h
      subst h2
      rfl

/-! ## Claim theorems -/

/-- C1: the claim says the process exits once every endpoint worker has
finished its budget. In the code, `main` adds 100000 to the WaitGroup
per tester while each tester goroutine runs exactly one deferred
`Done`, so after all `n ≥ 1` workers have completed the counter is
`n * 99999 ≠ 0` and `wg.Wait()` never returns: the process never
exits at all. -/
theorem c1_wait_never_returns :
    wgCounterAfterAllWorkers 1 = 99999 ∧
    (∀ n : Nat, wgCounterAfterAllWorkers (n + 1) = (n + 1) * 99999) ∧
    ¬ waitReturns (wgCounterAfterAllWorkers 1) := by
  refine ⟨rfl, fun n => ?_, ?_⟩
  · unfold wgCounterAfterAllWorkers wgAddPerTester wgDonePerTester
    ring_nf
    omega
  · unfold waitReturns wgCounterAfterAllWorkers wgAddPerTester wgDonePerTester
    decide

/-- C2: the backoff sequencer contract. On a failure with
`waitIndex < len(sequence)`, `currentWait` becomes
`sequence[waitIndex]` (in seconds), `waitIndex` is incremented, and the
resulting `currentWait` is the wait the probe sleeps; once the index
has saturated the state is unchanged. On any success `waitIndex`
resets to 0 with `currentWait` untouched. For the sequence `[1,2,5]`
consecutive failures wait 1s, 2s, 5s, then 5s indefinitely, and after
a reset the next failure uses `sequence[0]` again. -/
theorem c2_backoff_contract :
    (∀ (intervals : List Int) (st : BackoffState)
        (h : st.waitIndex < intervals.length),
      onFailure intervals st =
        { waitIndex := st.waitIndex + 1
          errorWait := intervals.get ⟨st.waitIndex, h⟩ * second }) ∧
    (∀ (intervals : List Int) (st : BackoffState),
      intervals.length ≤ st.waitIndex → onFailure intervals st = st) ∧
    (∀ st : BackoffState, onSuccess st = { st with waitIndex := 0 }) ∧
    (∀ name intervals rl startTime t o s s' eff,
      isFailure o = true →
      probeStep name intervals rl startTime t o s = some (s', eff) →
      s'.backoff = onFailure intervals s.backoff ∧
      eff.backoffSleep = some ((onFailure intervals s.backoff).errorWait)) ∧
    (onFailure [1, 2, 5] ⟨0, 0⟩ = ⟨1, second⟩ ∧
      onFailure [1, 2, 5] ⟨1, second⟩ = ⟨2, 2 * second⟩ ∧
      onFailure [1, 2, 5] ⟨2, 2 * second⟩ = ⟨3, 5 * second⟩ ∧
      onFailure [1, 2, 5] ⟨3, 5 * second⟩ = ⟨3, 5 * second⟩ ∧
      onSuccess ⟨2, 2 * second⟩ = ⟨0, 2 * second⟩ ∧
      onFailure [1, 2, 5] ⟨0, 2 * second⟩ = ⟨1, second⟩) := by
  refine ⟨fun intervals st h => ?_, fun intervals st h => ?_,
    onSuccess_eq, fun name intervals rl startTime t o s s' eff ho h => ?_, ?_⟩
  · unfold onFailure
    rw [dif_pos h]
  · unfold onFailure
    rw [dif_neg (by omega)]
  · unfold probeStep at h
    rw [if_pos ho] at h
    simp only [Option.some.injEq, Prod.mk.injEq] at h
    obtain ⟨h1, h2⟩ := h
    subst h1
    subst h2
    exact ⟨rfl, rfl⟩
  · refine ⟨by decide, by decide, by decide, by decide, by decide, by decide⟩

/-- Witness for C2 at concrete inputs: the first escalation step from
index 0 over the one-element sequence `[9]`, and saturation once the
index has passed the end. -/
theorem c2_backoff_contract_witness :
    onFailure [9] ⟨0, 0⟩ = { waitIndex := 0 + 1, errorWait := 9 * second } ∧
    onFailure [9] ⟨1, 9 * second⟩ = ⟨1, 9 * second⟩ := by
  constructor
  · exact c2_backoff_contract.1 [9] ⟨0, 0⟩ (by decide)
  · exact c2_backoff_contract.2.1 [9] ⟨1, 9 * second⟩ (by decide)

/-- C3: outcome classification is exactly: transport error or status in
`(400, 500)` is a failure; status in `[200, 300)` is a success; every
other outcome is neither, and for it the loop iteration changes
nothing at all — counters, backoff state (`waitIndex`, `currentWait`),
streak bookkeeping — except that the request consumes exactly one unit
of the request budget (`requestCount`), with no sink write, no backoff
sleep and no batch. -/
theorem c3_unclassified_frame :
    (∀ msg, isFailure (.transportError msg) = true) ∧
    (∀ c : Int, isFailure (.status c) = true ↔ 400 < c ∧ c < 500) ∧
    (∀ c : Int, isSuccess (.status c) = true ↔ 200 ≤ c ∧ c < 300) ∧
    (∀ c : Int, ¬(400 < c ∧ c < 500) → ¬(200 ≤ c ∧ c < 300) →
      ∀ name intervals rl startTime t s,
        probeStep name intervals rl startTime t (.status c) s =
          some ({ s with requestCount := s.requestCount + 1 },
                { paceSleep := rl.waitTime
                  sinkError := none
                  backoffSleep := none
                  batch := none })) := by
  refine ⟨fun msg => rfl, fun c => ?_, fun c => ?_, fun c h1 h2 => ?_⟩
  · simp [isFailure]
  · simp [isSuccess]
  · intro name intervals rl startTime t s
    have hf : isFailure (Outcome.status c) = false := by
      simp [isFailure]
      omega
    have hs : isSuccess (Outcome.status c) = false := by
      simp [isSuccess]
      omega
    unfold probeStep
    rw [if_neg (by simp [hf]), if_neg (by simp [hs])]

/-- Witness for C3 at the boundary status 400: the iteration leaves the
initial state untouched except for the request budget. -/
theorem c3_unclassified_frame_witness :
    probeStep "e" [1] { limit := 1, interval := second } 0 5
        (.status 400) (initialProbeState 0) =
      some ({ initialProbeState 0 with
                requestCount := (initialProbeState 0).requestCount + 1 },
            { paceSleep := RateLimit.waitTime { limit := 1, interval := second }
              sinkError := none
              backoffSleep := none
              batch := none }) :=
  c3_unclassified_frame.2.2.2 400 (by decide) (by decide)
    "e" [1] { limit := 1, interval := second } 0 5 (initialProbeState 0)

/-- C4: a Batch is emitted exactly once per recovery — an iteration
emits a batch iff its outcome is a success and a streak is active
(`lastError` set) — and emission resets the within-streak counters and
the streak sentinel. Concretely, three failures at `t1, t2, t3`
followed by one success at `t4` from the initial state emit exactly
one Batch with three failures, one success, and streak duration
`t4 - t1` (the wall time from the first failure to the success). -/
theorem c4_batch_per_recovery :
    (∀ name intervals rl startTime t o s s' eff,
      probeStep name intervals rl startTime t o s = some (s', eff) →
      ((eff.batch.isSome = true) ↔
        (isSuccess o = true ∧ s.lastError.isSome = true)) ∧
      (eff.batch.isSome = true →
        s'.res.batchErrorCount = 0 ∧ s'.res.batchSuccessfulCount = 0 ∧
        s'.lastError = none)) ∧
    (∀ t1 t2 t3 t4 : Int, ∀ rl : RateLimit,
      (runProbe "e" [1, 2, 5] rl 0
          [(t1, .transportError "x"), (t2, .transportError "x"),
            (t3, .transportError "x"), (t4, .status 200)]
          (initialProbeState 0)).map (fun r => batchesOf r.2) =
        some [{ name := "e", successes := 1, successTime := t3 - t2,
                failures := 3, failTime := t4 - t1, lastWaitInterval := 1 }]) := by
  constructor
  · intro name intervals rl startTime t o s s' eff h
    unfold probeStep at h
    split at h
    case isTrue hf =>
      simp only [Option.some.injEq, Prod.mk.injEq] at h
      obtain ⟨h1, h2⟩ := h
      subst h2
      have hs : isSuccess o = false := by
        cases o with
        | transportError msg => rfl
        | status c =>
          simp [isFailure] at hf
          simp [isSuccess]
          omega
      simp [hs]
    case isFalse hf =>
      split at h
      case isTrue hsu =>
        dsimp only at h
        split at h
        case h_1 le heq =>
          split at h
          · exact absurd h (by simp)
          · simp only [Option.some.injEq, Prod.mk.injEq] at h
            obtain ⟨h1, h2⟩ := h
            subst h1
            subst h2
            simp [hsu, heq]
        case h_2 heq =>
          simp only [Option.some.injEq, Prod.mk.injEq] at h
          obtain ⟨h1, h2⟩ := h
          subst h2
          simp [heq]
      case isFalse hsu =>
        simp only [Option.some.injEq, Prod.mk.injEq] at h
        obtain ⟨h1, h2⟩ := h
        subst h2
        simp [hsu]
  · intro t1 t2 t3 t4 rl
    simp only [runProbe, probeStep, isFailure, isSuccess, onFailure, onSuccess,
      errorInsert, initialProbeState, batchesOf]
    norm_num [List.filterMap_cons]

/-- Witness for C4: a success at `t = 9` from a state with one recorded
failure at `t = 5` satisfies both sides of the emission
characterisation. -/
theorem c4_batch_per_recovery_witness :
    isSuccess (Outcome.status 250) = true ∧
      (Option.some (5 : Int)).isSome = true := by
  have h := (c4_batch_per_recovery.1 "e" [1] { limit := 1, interval := second }
      0 9 (Outcome.status 250) failedOnceState _ _ rfl).1
  exact h.mp (by rfl)

/-- C5 counterexample: `TotalSuccessTime` is overwritten at every
failure, so for a streak with more than one failure the emitted
Batch's success-duration field is the gap between the streak's last
two failures, not the preceding success run. In the run below the
success run lasts from probe start `0` to the first failure at `10`
(spec value 10), but the emitted Batch carries `successTime = 3`
(`13 - 10`). -/
theorem c5_counterexample :
    (runProbe "e" [1, 2, 5] { limit := 1, interval := second } 0
        [(4, .status 250), (10, .transportError "x"),
          (13, .transportError "x"), (20, .status 250)]
        (initialProbeState 0)).map
      (fun r => (batchesOf r.2).map (fun b => b.successTime)) = some [3] ∧
    specSuccessRunTime 0 10 = 10 ∧ (3 : Int) ≠ 10 := by
  refine ⟨by rfl, by decide, by decide⟩

/-- C5 amended: every failure overwrites `TotalSuccessTime` with the
wall time since `batchStartTime` — which the previous failure (or
probe start) set — and an emitted Batch's success-duration field is
the pre-success value of `TotalSuccessTime`, i.e. the value written at
the streak's last failure, not the elapsed time of the preceding
success run. -/
theorem c5_success_time_amended :
    (∀ name intervals rl startTime t o s s' eff,
      isFailure o = true →
      probeStep name intervals rl startTime t o s = some (s', eff) →
      s'.res.totalSuccessTime = t - s.batchStartTime ∧
      s'.batchStartTime = t) ∧
    (∀ name intervals rl startTime t o s s' eff b,
      probeStep name intervals rl startTime t o s = some (s', eff) →
      eff.batch = some b →
      b.successTime = s.res.totalSuccessTime) := by
  constructor
  · intro name intervals rl startTime t o s s' eff ho h
    unfold probeStep at h
    rw [if_pos ho] at h
    simp only [Option.some.injEq, Prod.mk.injEq] at h
    obtain ⟨h1, -⟩ := h
    subst h1
    exact ⟨rfl, rfl⟩
  · intro name intervals rl startTime t o s s' eff b h hb
    unfold probeStep at h
    split at h
    · simp only [Option.some.injEq, Prod.mk.injEq] at h
      obtain ⟨-, h2⟩ := h
      subst h2
      simp at hb
    · split at h
      · dsimp only at h
        split at h
        · split at h
          · exact absurd h (by simp)
          · simp only [Option.some.injEq, Prod.mk.injEq] at h
            obtain ⟨-, h2⟩ := h
            subst h2
            simp only [Option.some.injEq] at hb
            subst hb
            rfl
        · simp only [Option.some.injEq, Prod.mk.injEq] at h
          obtain ⟨-, h2⟩ := h
          subst h2
          simp at hb
      · simp only [Option.some.injEq, Prod.mk.injEq] at h
        obtain ⟨-, h2⟩ := h
        subst h2
        simp at hb

/-- Witness for C5 (amended): a failure at `t = 5` from the initial
state writes `TotalSuccessTime = 5 - 0` and moves `batchStartTime` to
`5`. -/
theorem c5_success_time_amended_witness :
    failedOnceState.res.totalSuccessTime =
      5 - (initialProbeState 0).batchStartTime ∧
    failedOnceState.batchStartTime = 5 :=
  c5_success_time_amended.1 "e" [1] { limit := 1, interval := second } 0 5
    (Outcome.transportError "x") (initialProbeState 0) failedOnceState
    { paceSleep := second
      sinkError := some (errorInsert "e" (Outcome.transportError "x") 5)
      backoffSleep := some second
      batch := none } rfl rfl

/-- C6: whenever a Batch is built, the success that triggers it has
already reset the backoff index, so the recorded backoff-step field is
taken at index 0 of the interval list — the reset value — regardless
of the index in effect during the streak just ended. -/
theorem c6_batch_records_reset_index :
    ∀ name intervals rl startTime t o s s' eff b,
      probeStep name intervals rl startTime t o s = some (s', eff) →
      eff.batch = some b →
      s'.backoff.waitIndex = 0 ∧
      intervals.get? 0 = some b.lastWaitInterval := by
  intro name intervals rl startTime t o s s' eff b h hb
  unfold probeStep at h
  split at h
  · simp only [Option.some.injEq, Prod.mk.injEq] at h
    obtain ⟨-, h2⟩ := h
    subst h2
    simp at hb
  · split at h
    · dsimp only at h
      split at h
      · split at h
        case h_1 => exact absurd h (by simp)
        case h_2 lw hlw =>
          simp only [Option.some.injEq, Prod.mk.injEq] at h
          obtain ⟨h1, h2⟩ := h
          subst h1
          subst h2
          simp only [Option.some.injEq] at hb
          subst hb
          rw [onSuccess_waitIndex] at hlw
          exact ⟨onSuccess_waitIndex s.backoff, hlw⟩
      · simp only [Option.some.injEq, Prod.mk.injEq] at h
        obtain ⟨-, h2⟩ := h
        subst h2
        simp at hb
    · simp only [Option.some.injEq, Prod.mk.injEq] at h
      obtain ⟨-, h2⟩ := h
      subst h2
      simp at hb

/-- Witness for C6: a recovery from a state whose streak escalated the
backoff index to 3 (interval in effect 5s) still records
`intervals[0] = 1` on the Batch. -/
theorem c6_batch_records_reset_index_witness :
    (0 : Nat) = 0 ∧ List.get? ([1, 2, 5] : List Int) 0 = some 1 ∧
      (1 : Int) ≠ 5 := by
  have h := c6_batch_records_reset_index "e" [1, 2, 5]
    { limit := 1, interval := second } 0 20 (Outcome.status 204)
    { requestCount := 3
      backoff := { waitIndex := 3, errorWait := 5 * second }
      lastError := some 5
      batchStartTime := 13
      res :=
        { successfulCount := 0
          batchSuccessfulCount := 0
          errorCount := 3
          batchErrorCount := 3
          requestsPerSecond := 0.0
          errorWait := 0
          sleepStatus := false
          totalSuccessTime := 3 } } _ _ _ rfl rfl
  exact ⟨h.1, h.2, by decide⟩

/-- C7 counterexample: the claim requires the entire leading substring
to parse as a strictly positive integer, but `fmt.Sscanf` with `%d`
ignores everything after a numeric prefix, so `"1as"` — whose leading
substring `"1a"` is not an integer — is accepted by `parseRate`. -/
theorem c7_counterexample :
    (parseRate "1as").isSome = true ∧ specValidRate "1as" = false := by
  exact ⟨by decide, by decide⟩

/-- Boundary behaviour of the embedded `Sscanf` scanner: a leading
newline is an `unexpected newline` error (`Sscanf` scans with
`nlIsSpace = false`), so `"\n1s"` is rejected, while a vertical tab
is ordinary `fmt` white space and is skipped, so `"\x0b1s"` parses. -/
theorem parseRate_newline_vtab :
    parseRate "\n1s" = none ∧
    parseRate "\x0b1s" = some { limit := 1, interval := second } := by
  exact ⟨by decide, by decide⟩

/-- C7 amended: rate parsing succeeds exactly for inputs of length at
least two that end in `s`/`m`/`h` and whose leading substring, scanned
like `Sscanf %d` (skip leading `fmt` white space, where meeting a
newline is an `unexpected newline` error that fails the scan; then an
optional sign and a maximal non-empty decimal digit run, ignoring any
trailing characters; int64 overflow fails the scan), yields a
strictly positive value; every other input fails with a parse error
and produces no `rateLimit`. -/
theorem c7_parse_characterization (rate : String) :
    (parseRate rate).isSome = true ↔
      (2 ≤ rate.length ∧
        (rate.back = 's' ∨ rate.back = 'm' ∨ rate.back = 'h') ∧
        0 < (scanInt (rate.toList.take (rate.length - 1))).getD 0) := by
  have hunit : (unitOf rate.back).isSome = true ↔
      (rate.back = 's' ∨ rate.back = 'm' ∨ rate.back = 'h') := by
    unfold unitOf
    split_ifs with hs hm hh <;> simp_all
  unfold parseRate
  by_cases h1 : rate.length < 2
  · rw [if_pos h1]
    constructor
    · intro hfalse
      exact absurd hfalse (by simp)
    · rintro ⟨hlen, -, -⟩
      omega
  · rw [if_neg h1]
    cases hu : unitOf rate.back with
    | none =>
      rw [hu] at hunit
      simp only [Option.isSome_none] at hunit
      constructor
      · intro hfalse
        exact absurd hfalse (by simp)
      · rintro ⟨-, hb, -⟩
        exact absurd (hunit.mpr hb) (by simp)
    | some interval =>
      rw [hu] at hunit
      simp only [Option.isSome_some, true_iff] at hunit
      dsimp only
      by_cases h2 : (scanInt (rate.toList.take (rate.length - 1))).getD 0 ≤ 0
      · rw [if_pos h2]
        constructor
        · intro hfalse
          exact absurd hfalse (by simp)
        · rintro ⟨-, -, h3⟩
          omega
      · rw [if_neg h2]
        simp only [Option.isSome_some, true_iff]
        exact ⟨by omega, hunit, by omega⟩

/-- C8: for every successfully parsed rate expression, the pacer's
limit is strictly positive, `waitTime()` is `interval / limit` under
truncating (Go int64) division with the interval determined by the
unit suffix and the limit by the scanned count, and every iteration of
the probe loop sleeps exactly `waitTime()` before its request —
including the first, since the sleep opens the loop body. -/
theorem c8_wait_time :
    ∀ (rate : String) (rl : RateLimit),
      parseRate rate = some rl →
      0 < rl.limit ∧
      rl.waitTime = Int.tdiv rl.interval rl.limit ∧
      unitOf rate.back = some rl.interval ∧
      rl.limit = (scanInt (rate.toList.take (rate.length - 1))).getD 0 ∧
      (∀ name intervals startTime t o s s' eff,
        probeStep name intervals rl startTime t o s = some (s', eff) →
        eff.paceSleep = rl.waitTime) := by
  intro rate rl h
  unfold parseRate at h
  split at h
  · exact absurd h (by simp)
  · split at h
    case h_1 => exact absurd h (by simp)
    case h_2 interval hu =>
      dsimp only at h
      split at h
      · exact absurd h (by simp)
      case isFalse h2 =>
        simp only [Option.some.injEq] at h
        subst h
        refine ⟨by dsimp only; omega, rfl, hu, rfl, ?_⟩
        intro name intervals startTime t o s s' eff hstep
        exact probeStep_paceSleep hstep

/-- Witness for C8: `"7m"` parses to 7 requests per minute and the
per-request delay is the truncated `60s / 7`. -/
theorem c8_wait_time_witness :
    parseRate "7m" = some { limit := 7, interval := minute } ∧
    RateLimit.waitTime { limit := 7, interval := minute } = 8571428571 := by
  have hp : parseRate "7m" = some { limit := 7, interval := minute } := by decide
  have h := c8_wait_time "7m" { limit := 7, interval := minute } hp
  refine ⟨hp, ?_⟩
  rw [h.2.1]
  decide

/-- C9: the claim says every failed request records exactly one
ErrorEvent. The failure branch does issue exactly one INSERT and a
driver error never aborts the probe (the returned error is discarded
and the iteration completes), but the transport-error INSERT binds
four arguments to three placeholders, so it always fails at the sink
and no transport-level ErrorEvent is ever recorded. -/
theorem c9_transport_event_never_recorded :
    ∀ (name msg : String) (t : Int),
      (errorInsert name (.transportError msg) t).placeholders = 3 ∧
      (errorInsert name (.transportError msg) t).args.length = 4 ∧
      (errorInsert name (.transportError msg) t).succeeds = false ∧
      (∀ c : Int, (errorInsert name (.status c) t).succeeds = true) ∧
      (∀ intervals rl startTime s,
        (probeStep name intervals rl startTime t (.transportError msg) s).map
            (fun r => (r.2.sinkError, r.1.requestCount)) =
          some (some (errorInsert name (.transportError msg) t),
            s.requestCount + 1)) := by
  intro name msg t
  exact ⟨rfl, rfl, rfl, fun c => rfl, fun intervals rl startTime s => rfl⟩

/-- C10: on a recovery (a success with an open streak), building the
Batch indexes the backoff-interval list at the reset index 0: with an
empty list the iteration panics (index out of range), and with a
non-empty list the index is in bounds and the head is recorded. -/
theorem c10_empty_backoff_panics :
    ∀ (name : String) (rl : RateLimit) (startTime t : Int) (o : Outcome)
      (s : ProbeState) (e : Int),
      isSuccess o = true → s.lastError = some e →
      probeStep name [] rl startTime t o s = none ∧
      (∀ (x : Int) (rest : List Int),
        (probeStep name (x :: rest) rl startTime t o s).map
            (fun r => r.2.batch.map (fun b => b.lastWaitInterval)) =
          some (some x)) := by
  intro name rl startTime t o s e hsu hle
  have hf := success_not_failure hsu
  constructor
  · unfold probeStep
    rw [if_neg (by simp [hf]), if_pos hsu]
    rw [hle]
    simp [onSuccess_waitIndex]
  · intro x rest
    unfold probeStep
    rw [if_neg (by simp [hf]), if_pos hsu]
    rw [hle]
    simp [onSuccess_waitIndex]

/-- Witness for C10: a recovery at `t = 9` from `failedOnceState`
panics with the empty backoff list and records the head `7` with the
list `[7]`. -/
theorem c10_empty_backoff_panics_witness :
    probeStep "e" [] { limit := 1, interval := second } 0 9
        (Outcome.status 250) failedOnceState = none ∧
    (probeStep "e" [7] { limit := 1, interval := second } 0 9
        (Outcome.status 250) failedOnceState).map
      (fun r => r.2.batch.map (fun b => b.lastWaitInterval)) =
      some (some 7) := by
  have h := c10_empty_backoff_panics "e" { limit := 1, interval := second } 0 9
    (Outcome.status 250) failedOnceState 5 rfl rfl
  exact ⟨h.1, h.2 7 []⟩

end Rateprowler
